import Mathlib

/-!
Shallow embedding of the MailBreeze SDK request-execution engine
(`src/http/errors.ts` and `src/http/fetcher.ts`).

The JavaScript error classes are modelled as a single structure carrying the
`name` tag each constructor assigns (which is what `instanceof`-style dispatch
observes in the source, since every constructor sets `this.name` to its own
class name).  JavaScript `undefined` is modelled by `Option`, and the one
place a JS number can be `NaN` (the result of `Number.parseInt` on the
retry-advisory header) is modelled by `JSNum`.
-/

namespace MailBreeze

/-- `Record<string, unknown>` payloads (`details`, etc.) — the engine only
passes them through, so any concrete representation works. -/
abbrev Details := List (String × String)

/-- A JavaScript number in the positions where the engine can produce `NaN`
(only `Number.parseInt` on a header does); all other numbers are integers. -/
inductive JSNum where
  | nan : JSNum
  | int : Int → JSNum
deriving DecidableEq, Repr

/-- JS truthiness of a `number | undefined` value: `undefined`, `NaN` and `0`
are falsy. -/
def jsNumTruthy : Option JSNum → Bool
  | some (JSNum.int i) => i != 0
  | _ => false

/-- The integer value of a `number | undefined`; `0` where no integer is
present (only read under a truthiness guard in the source). -/
def jsNumVal : Option JSNum → Int
  | some (JSNum.int i) => i
  | _ => 0

/-- The `error` member of the API error envelope (`ErrorResponseBody` in
`errors.ts`): all fields optional. -/
structure ErrorResponseBody where
  code : Option String
  message : Option String
  details : Option Details
deriving DecidableEq, Repr

/-- One classified error object.  `name` is the class tag the constructor
assigns; `retryAfter` exists only on `RateLimitError` instances (it is `none`
for every other constructor). -/
structure MailBreezeError where
  name : String
  message : String
  code : String
  statusCode : Option Nat
  requestId : Option String
  details : Option Details
  retryAfter : Option JSNum
deriving DecidableEq, Repr

/-- `new MailBreezeError(message, code, statusCode?, requestId?, details?)`. -/
def mkMailBreezeError (message code : String) (statusCode : Option Nat)
    (requestId : Option String) (details : Option Details) : MailBreezeError :=
  ⟨"MailBreezeError", message, code, statusCode, requestId, details, none⟩

/-- `new AuthenticationError(message, code, requestId?)` — statusCode 401,
no details slot. -/
def mkAuthenticationError (message code : String) (requestId : Option String) :
    MailBreezeError :=
  ⟨"AuthenticationError", message, code, some 401, requestId, none, none⟩

/-- `new ValidationError(message, code, requestId?, details?)` — statusCode
400, details forwarded. -/
def mkValidationError (message code : String) (requestId : Option String)
    (details : Option Details) : MailBreezeError :=
  ⟨"ValidationError", message, code, some 400, requestId, details, none⟩

/-- `new NotFoundError(message, code, requestId?)` — statusCode 404. -/
def mkNotFoundError (message code : String) (requestId : Option String) :
    MailBreezeError :=
  ⟨"NotFoundError", message, code, some 404, requestId, none, none⟩

/-- `new RateLimitError(message, code, requestId?, retryAfter?)` — statusCode
429, retry hint stored when not `undefined`. -/
def mkRateLimitError (message code : String) (requestId : Option String)
    (retryAfter : Option JSNum) : MailBreezeError :=
  ⟨"RateLimitError", message, code, some 429, requestId, none, retryAfter⟩

/-- `new ServerError(message, code, statusCode, requestId?)` — no details
slot. -/
def mkServerError (message code : String) (statusCode : Nat)
    (requestId : Option String) : MailBreezeError :=
  ⟨"ServerError", message, code, some statusCode, requestId, none, none⟩

/-- `createErrorFromResponse` from `errors.ts`: the status-code switch, with
the body-field fallbacks computed first. -/
def createErrorFromResponse (statusCode : Nat)
    (body : Option ErrorResponseBody) (requestId : Option String)
    (retryAfter : Option JSNum) : MailBreezeError :=
  let message := (body.bind (·.message)).getD "Unknown error"
  let code := (body.bind (·.code)).getD "UNKNOWN_ERROR"
  let details := body.bind (·.details)
  if statusCode = 400 then mkValidationError message code requestId details
  else if statusCode = 401 then mkAuthenticationError message code requestId
  else if statusCode = 404 then mkNotFoundError message code requestId
  else if statusCode = 429 then mkRateLimitError message code requestId retryAfter
  else if 500 ≤ statusCode then mkServerError message code statusCode requestId
  else mkMailBreezeError message code (some statusCode) requestId details

/-! ### The request engine (`fetcher.ts`) -/

def SDK_VERSION : String := "0.1.0"

/-- `FetcherConfig.authStyle`. -/
inductive AuthStyle where
  | header : AuthStyle
  | bearer : AuthStyle
deriving DecidableEq, Repr

/-- Whitespace skipped by `Number.parseInt`. -/
def isWsChar (c : Char) : Bool :=
  c == ' ' || c == '\t' || c == '\n' || c == '\r'

/-- Value of a list of decimal digit characters. -/
def digitsToNat (ds : List Char) : Nat :=
  ds.foldl (fun a c => a * 10 + (c.toNat - 48)) 0

/-- `Number.parseInt(s, 10)`: skip leading whitespace, optional sign, read
leading decimal digits; `NaN` when no digit follows. -/
def parseIntJS (s : String) : JSNum :=
  let cs := s.data.dropWhile isWsChar
  match cs with
  | '-' :: rest =>
    let ds := rest.takeWhile Char.isDigit
    if ds.isEmpty then JSNum.nan else JSNum.int (-(digitsToNat ds : Int))
  | '+' :: rest =>
    let ds := rest.takeWhile Char.isDigit
    if ds.isEmpty then JSNum.nan else JSNum.int (digitsToNat ds)
  | _ =>
    let ds := cs.takeWhile Char.isDigit
    if ds.isEmpty then JSNum.nan else JSNum.int (digitsToNat ds)

/-- `retryAfter ? Number.parseInt(retryAfter, 10) : undefined` applied to the
`Retry-After` header (`null` and the empty string are falsy). -/
def retryAfterSecondsOf (h : Option String) : Option JSNum :=
  match h with
  | none => none
  | some s => if s = "" then none else some (parseIntJS s)

/-- `Response.ok`: status in the inclusive range 200–299. -/
def responseOk (status : Nat) : Bool :=
  decide (200 ≤ status) && decide (status ≤ 299)

/-- The parsed response-body envelope `ApiResponse<T>`; runtime JSON may lack
any member, so `data` and `error` are optional. -/
structure Envelope (α : Type) where
  success : Bool
  data : Option α
  error : Option ErrorResponseBody
deriving DecidableEq, Repr

/-- Outcome of `response.json()`: it either throws or yields an envelope. -/
inductive BodyParse (α : Type) where
  | malformed : BodyParse α
  | parsed : Envelope α → BodyParse α
deriving DecidableEq, Repr

/-- Result of one engine operation: the unwrapped payload (absent for 204 /
empty bodies) or a thrown classified error. -/
inductive RequestResult (α : Type) where
  | ok : Option α → RequestResult α
  | err : MailBreezeError → RequestResult α
deriving DecidableEq, Repr

/-- `Fetcher.handleResponse`: header reads, the 204 early return, the JSON
parse fallback, the `success:false` branch with its 400 default, and the
HTTP-error branch. -/
def handleResponse {α : Type} (status : Nat)
    (requestIdHdr retryAfterHdr : Option String) (body : BodyParse α) :
    RequestResult α :=
  let requestId := requestIdHdr
  let retryAfterSeconds := retryAfterSecondsOf retryAfterHdr
  if status = 204 then RequestResult.ok none
  else
    match body with
    | BodyParse.malformed =>
      if !(responseOk status) then
        RequestResult.err (createErrorFromResponse status none requestId none)
      else RequestResult.ok none
    | BodyParse.parsed env =>
      if !env.success then
        let statusCode := if responseOk status then 400 else status
        RequestResult.err
          (createErrorFromResponse statusCode env.error requestId retryAfterSeconds)
      else if !(responseOk status) then
        RequestResult.err
          (createErrorFromResponse status none requestId retryAfterSeconds)
      else RequestResult.ok env.data

/-- The error `executeRequest` throws when the abort controller fired. -/
def timeoutError : MailBreezeError :=
  mkMailBreezeError "Request timeout" "TIMEOUT_ERROR" (some 0) none none

/-- The error `executeRequest` throws for a non-abort transport failure. -/
def networkError (m : String) : MailBreezeError :=
  mkServerError ("Network error: " ++ m) "NETWORK_ERROR" 0 none

/-- What one transport attempt can come back with: the timer fired first, the
transport failed with a message, or an HTTP response
(status, request-id header, retry-advisory header, body) arrived. -/
inductive AttemptOutcome (α : Type) where
  | timeout : AttemptOutcome α
  | networkFailure : String → AttemptOutcome α
  | httpResponse : Nat → Option String → Option String → BodyParse α →
      AttemptOutcome α
deriving DecidableEq, Repr

/-- `Fetcher.executeRequest`: classify the transport outcome.  An abort
becomes `timeoutError`, another transport failure becomes `networkError`,
and a response goes through `handleResponse`. -/
def executeRequest {α : Type} (o : AttemptOutcome α) : RequestResult α :=
  match o with
  | AttemptOutcome.timeout => RequestResult.err timeoutError
  | AttemptOutcome.networkFailure m => RequestResult.err (networkError m)
  | AttemptOutcome.httpResponse status rid ra body =>
    handleResponse status rid ra body

/-- `Fetcher.isRetryable(error, originalError)`.  In `request` both arguments
are the same classified error, so the `AbortError` name test sees the
classified error's own `name` tag. -/
def isRetryable (error : MailBreezeError) (originalName : String) : Bool :=
  if originalName == "AbortError" then false
  else if error.statusCode == some 429
      || (error.statusCode.isSome && decide (500 ≤ error.statusCode.getD 0)) then
    true
  else if error.statusCode == some 0 && error.code == "NETWORK_ERROR" then true
  else false

/-- `Fetcher.getRetryDelay`: the `Retry-After` override (guarded by JS
truthiness, so `0` and `NaN` fall through) else exponential backoff. -/
def getRetryDelay (error : MailBreezeError) (attempt : Nat) : Int :=
  if error.name == "RateLimitError" && jsNumTruthy error.retryAfter then
    jsNumVal error.retryAfter * 1000
  else ((2 ^ (attempt - 1) * 1000 : Nat) : Int)

/-- Result of `Fetcher.buildHeaders`: the header list, or the thrown error. -/
inductive HeadersResult where
  | ok : List (String × String) → HeadersResult
  | err : MailBreezeError → HeadersResult
deriving DecidableEq, Repr

/-- Content-type, user-agent and the single authentication header. -/
def baseHeaders (authStyle : AuthStyle) (apiKey : String) :
    List (String × String) :=
  [("Content-Type", "application/json"),
   ("User-Agent", "mailbreeze-js/" ++ SDK_VERSION)] ++
  (if authStyle = AuthStyle.bearer then [("Authorization", "Bearer " ++ apiKey)]
   else [("X-API-Key", apiKey)])

/-- `Fetcher.buildHeaders(idempotencyKey?)`: the key is only examined when
truthy (so `undefined` and `""` are skipped); a key containing CR or LF
throws before any header is added. -/
def buildHeaders (authStyle : AuthStyle) (apiKey : String)
    (idempotencyKey : Option String) : HeadersResult :=
  let hs := baseHeaders authStyle apiKey
  match idempotencyKey with
  | none => HeadersResult.ok hs
  | some k =>
    if k = "" then HeadersResult.ok hs
    else if k.data.any (fun c => c == '\r' || c == '\n') then
      HeadersResult.err (mkMailBreezeError
        "Invalid idempotency key: contains invalid characters"
        "INVALID_IDEMPOTENCY_KEY" none none none)
    else HeadersResult.ok (hs ++ [("X-Idempotency-Key", k)])

/-- Observable outcome of one `request` call: number of transport calls made,
the inter-attempt delays slept, and the final result. -/
structure RequestTrace (α : Type) where
  calls : Nat
  delays : List Int
  result : RequestResult α
deriving DecidableEq, Repr

/-- The attempt loop of `Fetcher.request`, with `remaining` the number of
loop iterations still allowed (`maxAttempts - attempt`).  `outcomes n` is the
transport outcome of the n-th attempt (1-indexed). -/
def requestAux {α : Type} (outcomes : Nat → AttemptOutcome α)
    (attempt remaining : Nat) (lastError : Option MailBreezeError)
    (delays : List Int) : RequestTrace α :=
  match remaining with
  | 0 =>
    ⟨attempt, delays, RequestResult.err (lastError.getD
      (mkMailBreezeError "Unexpected error during request" "UNEXPECTED_ERROR"
        none none none))⟩
  | r + 1 =>
    let a := attempt + 1
    match executeRequest (outcomes a) with
    | RequestResult.ok v => ⟨a, delays, RequestResult.ok v⟩
    | RequestResult.err e =>
      if !(isRetryable e e.name) then ⟨a, delays, RequestResult.err e⟩
      else if r = 0 then ⟨a, delays, RequestResult.err e⟩
      else requestAux outcomes a r (some e) (delays ++ [getRetryDelay e a])

/-- `Fetcher.request`: header construction (which can throw before any
transport call), then the attempt loop with `maxAttempts = maxRetries + 1`. -/
def request {α : Type} (authStyle : AuthStyle) (apiKey : String)
    (maxRetries : Nat) (idempotencyKey : Option String)
    (outcomes : Nat → AttemptOutcome α) : RequestTrace α :=
  match buildHeaders authStyle apiKey idempotencyKey with
  | HeadersResult.err e => ⟨0, [], RequestResult.err e⟩
  | HeadersResult.ok _ => requestAux outcomes 0 (maxRetries + 1) none []

/-! ### Shared lemmas about the classification factory -/

/-- The kind → class-name table of the specification (§4.1). -/
def specKindName (s : Nat) : String :=
  if s = 400 then "ValidationError"
  else if s = 401 then "AuthenticationError"
  else if s = 404 then "NotFoundError"
  else if s = 429 then "RateLimitError"
  else if 500 ≤ s then "ServerError"
  else "MailBreezeError"

lemma createError_statusCode (s : Nat) (b : Option ErrorResponseBody)
    (r : Option String) (ra : Option JSNum) :
    (createErrorFromResponse s b r ra).statusCode = some s := by
  simp only [createErrorFromResponse, mkValidationError, mkAuthenticationError,
    mkNotFoundError, mkRateLimitError, mkServerError, mkMailBreezeError]
  repeat' split
  all_goals simp_all

lemma createError_name (s : Nat) (b : Option ErrorResponseBody)
    (r : Option String) (ra : Option JSNum) :
    (createErrorFromResponse s b r ra).name = specKindName s := by
  simp only [createErrorFromResponse, specKindName, mkValidationError,
    mkAuthenticationError, mkNotFoundError, mkRateLimitError, mkServerError,
    mkMailBreezeError]
  repeat' split
  all_goals simp_all

lemma specKindName_ne_abort (s : Nat) : specKindName s ≠ "AbortError" := by
  simp only [specKindName]
  repeat' split
  all_goals simp

lemma createError_retryAfter (s : Nat) (b : Option ErrorResponseBody)
    (r : Option String) (ra : Option JSNum) :
    (createErrorFromResponse s b r ra).retryAfter =
      if s = 429 then ra else none := by
  simp only [createErrorFromResponse, mkValidationError, mkAuthenticationError,
    mkNotFoundError, mkRateLimitError, mkServerError, mkMailBreezeError]
  repeat' split
  all_goals simp_all

lemma createError_message (s : Nat) (b : Option ErrorResponseBody)
    (r : Option String) (ra : Option JSNum) :
    (createErrorFromResponse s b r ra).message =
      (b.bind (·.message)).getD "Unknown error" := by
  simp only [createErrorFromResponse, mkValidationError, mkAuthenticationError,
    mkNotFoundError, mkRateLimitError, mkServerError, mkMailBreezeError]
  repeat' split
  all_goals simp_all

lemma createError_code (s : Nat) (b : Option ErrorResponseBody)
    (r : Option String) (ra : Option JSNum) :
    (createErrorFromResponse s b r ra).code =
      (b.bind (·.code)).getD "UNKNOWN_ERROR" := by
  simp only [createErrorFromResponse, mkValidationError, mkAuthenticationError,
    mkNotFoundError, mkRateLimitError, mkServerError, mkMailBreezeError]
  repeat' split
  all_goals simp_all

lemma createError_details (s : Nat) (b : Option ErrorResponseBody)
    (r : Option String) (ra : Option JSNum) :
    (createErrorFromResponse s b r ra).details =
      if s = 400 ∨ (s ≠ 401 ∧ s ≠ 404 ∧ s ≠ 429 ∧ s < 500) then
        b.bind (·.details)
      else none := by
  simp only [createErrorFromResponse, mkValidationError, mkAuthenticationError,
    mkNotFoundError, mkRateLimitError, mkServerError, mkMailBreezeError]
  repeat' split
  all_goals simp_all
  all_goals omega

/-! ### Shared lemmas about retryability and the attempt loop -/

/-- For an error whose `name` is not the abort tag, the retry test is exactly
the status-code/code condition of the specification. -/
lemma isRetryable_iff (e : MailBreezeError) (h : e.name ≠ "AbortError") :
    isRetryable e e.name = true ↔
      (e.statusCode = some 429 ∨ (∃ s, e.statusCode = some s ∧ 500 ≤ s) ∨
        (e.statusCode = some 0 ∧ e.code = "NETWORK_ERROR")) := by
  have hb : (e.name == "AbortError") = false := by
    simpa using h
  simp only [isRetryable, hb, Bool.false_eq_true, if_false]
  rcases hsc : e.statusCode with _ | s
  · simp [hsc]
  · by_cases h429 : s = 429
    · subst h429; simp
    · by_cases h500 : 500 ≤ s
      · simp [h429, h500]
      · by_cases h0 : s = 0 ∧ e.code = "NETWORK_ERROR"
        · obtain ⟨h0s, h0c⟩ := h0
          subst h0s
          simp [h0c]
        · simp [h429, h500, h0]

/-- An error with a 4xx status other than 429 is never retried, whatever the
original error's name was. -/
lemma isRetryable_false_of_4xx (e : MailBreezeError) (n : String) (s : Nat)
    (hsc : e.statusCode = some s) (h400 : 400 ≤ s) (h500 : s < 500)
    (h429 : s ≠ 429) : isRetryable e n = false := by
  simp only [isRetryable, hsc]
  split
  · rfl
  · split
    · simp_all
      omega
    · split <;> simp_all

/-- Every error branch of `handleResponse` goes through the factory. -/
lemma handleResponse_err {α : Type} {status : Nat} {rid ra : Option String}
    {b : BodyParse α} {e : MailBreezeError}
    (h : handleResponse status rid ra b = RequestResult.err e) :
    ∃ s' b' ra', e = createErrorFromResponse s' b' rid ra' := by
  cases b with
  | malformed =>
    simp only [handleResponse] at h
    split at h
    · exact absurd h (by simp)
    · split at h
      · exact ⟨status, none, none, by cases h; rfl⟩
      · exact absurd h (by simp)
  | parsed env =>
    simp only [handleResponse] at h
    split at h
    · exact absurd h (by simp)
    · split at h
      · refine ⟨if responseOk status then 400 else status, env.error,
          retryAfterSecondsOf ra, ?_⟩
        cases h; rfl
      · split at h
        · exact ⟨status, none, retryAfterSecondsOf ra, by cases h; rfl⟩
        · exact absurd h (by simp)

/-- One unrolling of the attempt loop (controlled, single step). -/
lemma requestAux_succ {α : Type} (outcomes : Nat → AttemptOutcome α)
    (attempt r : Nat) (le : Option MailBreezeError) (ds : List Int) :
    requestAux outcomes attempt (r + 1) le ds =
      match executeRequest (outcomes (attempt + 1)) with
      | RequestResult.ok v => ⟨attempt + 1, ds, RequestResult.ok v⟩
      | RequestResult.err e =>
        if !(isRetryable e e.name) then ⟨attempt + 1, ds, RequestResult.err e⟩
        else if r = 0 then ⟨attempt + 1, ds, RequestResult.err e⟩
        else requestAux outcomes (attempt + 1) r (some e)
          (ds ++ [getRetryDelay e (attempt + 1)]) := by
  simp only [requestAux]

/-- A failure that the predicate rejects terminates the loop at once with no
further delay. -/
lemma requestAux_notRetryable {α : Type} (outcomes : Nat → AttemptOutcome α)
    (attempt r : Nat) (le : Option MailBreezeError) (ds : List Int)
    (e : MailBreezeError)
    (h1 : executeRequest (outcomes (attempt + 1)) = RequestResult.err e)
    (h2 : isRetryable e e.name = false) :
    requestAux outcomes attempt (r + 1) le ds =
      ⟨attempt + 1, ds, RequestResult.err e⟩ := by
  rw [requestAux_succ, h1]
  simp [h2]

/-- When every attempt fails retryably, the loop runs all the way and ends on
the last attempt's error. -/
lemma requestAux_allRetryable {α : Type} (outcomes : Nat → AttemptOutcome α)
    (errs : Nat → MailBreezeError)
    (h1 : ∀ i, executeRequest (outcomes i) = RequestResult.err (errs i))
    (h2 : ∀ i, isRetryable (errs i) (errs i).name = true) :
    ∀ r attempt le ds, ∃ ds',
      requestAux outcomes attempt (r + 1) le ds =
        ⟨attempt + (r + 1), ds', RequestResult.err (errs (attempt + (r + 1)))⟩ := by
  intro r
  induction r with
  | zero =>
    intro attempt le ds
    refine ⟨ds, ?_⟩
    rw [requestAux_succ, h1]
    simp [h2]
  | succ r ih =>
    intro attempt le ds
    obtain ⟨ds', hds'⟩ := ih (attempt + 1) (some (errs (attempt + 1)))
      (ds ++ [getRetryDelay (errs (attempt + 1)) (attempt + 1)])
    refine ⟨ds', ?_⟩
    rw [requestAux_succ, h1]
    simp only [h2, Bool.not_true, Bool.false_eq_true, if_false,
      Nat.succ_ne_zero]
    have harith : attempt + 1 + (r + 1) = attempt + (r + 1 + 1) := by omega
    rw [harith] at hds'
    exact hds'

lemma responseOk_iff (status : Nat) :
    responseOk status = true ↔ (200 ≤ status ∧ status ≤ 299) := by
  simp [responseOk]

/-! ### Claim theorems -/

/-- C2: for every HTTP status code and every possibly absent parsed error
body, `createErrorFromResponse` returns (it is a total function) an error
whose class tag is the deterministic function of the status code given by
the mapping table — 400 Validation, 401 Authentication, 404 NotFound,
429 RateLimit, ≥500 Server, anything else the generic base class — and the
status code is recorded on the error in every case. -/
theorem c2_classification_table (s : Nat) (b : Option ErrorResponseBody)
    (r : Option String) (ra : Option JSNum) :
    (createErrorFromResponse s b r ra).name = specKindName s ∧
    (createErrorFromResponse s b r ra).statusCode = some s :=
  ⟨createError_name s b r ra, createError_statusCode s b r ra⟩

/-- C5 counterexample: a 401 response whose body carries `details` is
classified through `AuthenticationError`, whose constructor has no details
slot, so the details are dropped — contradicting the claim that `details`
is preserved regardless of which status code was classified. -/
theorem c5_counterexample :
    ¬ ((createErrorFromResponse 401
        (some ⟨some "C", some "m", some [("field", "bad")]⟩) none none).details =
          some [("field", "bad")]) := by decide

/-- C5 (amended): `message` and `code` fall back to "Unknown error" and
"UNKNOWN_ERROR" exactly as claimed for every status code, but `details` is
preserved only when the status classifies as Validation (400) or as the
generic base class (an unmapped non-5xx status); the Authentication,
NotFound, RateLimit and Server constructors drop it. -/
theorem c5_body_fields (s : Nat) (b : Option ErrorResponseBody)
    (r : Option String) (ra : Option JSNum) :
    (createErrorFromResponse s b r ra).message =
      (b.bind (·.message)).getD "Unknown error" ∧
    (createErrorFromResponse s b r ra).code =
      (b.bind (·.code)).getD "UNKNOWN_ERROR" ∧
    (createErrorFromResponse s b r ra).details =
      (if s = 400 ∨ (s ≠ 401 ∧ s ≠ 404 ∧ s ≠ 429 ∧ s < 500) then
        b.bind (·.details)
      else none) :=
  ⟨createError_message s b r ra, createError_code s b r ra,
    createError_details s b r ra⟩

/-- C7 counterexample: a RateLimit error carrying `retryAfterSeconds = 0`
(from a `Retry-After: 0` header) is falsy in JavaScript, so the loop uses
exponential backoff (1000 ms on attempt 1) instead of the claimed
0 × 1000 ms; shown both on the factory output and on a full two-attempt
trace whose recorded delay is 1000 ms. -/
theorem c7_counterexample :
    (createErrorFromResponse 429 none none (some (JSNum.int 0))).name =
      "RateLimitError" ∧
    (createErrorFromResponse 429 none none (some (JSNum.int 0))).retryAfter =
      some (JSNum.int 0) ∧
    getRetryDelay (createErrorFromResponse 429 none none (some (JSNum.int 0))) 1 =
      1000 ∧
    (1000 : Int) ≠ 0 * 1000 ∧
    (request AuthStyle.header "key" 1 none (fun n =>
      if n = 1 then
        AttemptOutcome.httpResponse 429 none (some "0")
          (BodyParse.parsed (⟨false, none, none⟩ : Envelope Nat))
      else
        AttemptOutcome.httpResponse 200 none none
          (BodyParse.parsed (⟨true, some 1, none⟩ : Envelope Nat)))).delays =
      [1000] := by decide

/-- C7 (amended): for a classified failure preceding another attempt, the
delay equals `retryAfterSeconds × 1000` whenever the failure was classified
from a 429 and carries a truthy retry value (a nonzero integer — `0` and
`NaN` are falsy and fall through), and otherwise equals
`2^(attemptNumber − 1) × 1000` milliseconds. -/
theorem c7_delay (s : Nat) (b : Option ErrorResponseBody) (rid : Option String)
    (ra : Option JSNum) (attempt : Nat) :
    getRetryDelay (createErrorFromResponse s b rid ra) attempt =
      (if s = 429 ∧ jsNumTruthy ra = true then jsNumVal ra * 1000
      else ((2 ^ (attempt - 1) * 1000 : Nat) : Int)) := by
  unfold getRetryDelay
  rw [createError_name, createError_retryAfter]
  by_cases h429 : s = 429
  · subst h429
    by_cases ht : jsNumTruthy ra = true
    · simp [specKindName, ht]
    · simp [specKindName, ht]
  · rw [if_neg h429]
    simp [jsNumTruthy, h429]

/-- C8 counterexample: a 429 response whose body fails to parse as JSON is
classified through the parse-failure branch, which does not forward the
retry-advisory header — even though the header is present and parseable as
the integer 60, the resulting RateLimit error carries no
`retryAfterSeconds`. -/
theorem c8_counterexample :
    parseIntJS "60" = JSNum.int 60 ∧
    handleResponse 429 none (some "60") (BodyParse.malformed : BodyParse Nat) =
      RequestResult.err (createErrorFromResponse 429 none none none) ∧
    (createErrorFromResponse 429 none none none).retryAfter = none ∧
    ¬ ((createErrorFromResponse 429 none none none).retryAfter =
        some (JSNum.int 60)) := by decide

/-- C8 (amended): for a 429 response whose body parses as the envelope, the
classified error carries `retryAfterSeconds` exactly as the header
computation yields it (the parsed integer for a present, nonempty, parseable
header; `NaN` for a present, nonempty, unparseable one; nothing otherwise);
when the body fails to parse as JSON, no `retryAfterSeconds` is carried even
if the header is present and parseable. -/
theorem c8_retry_advisory (α : Type) (rid hdr : Option String)
    (env : Envelope α) :
    (∃ e, handleResponse 429 rid hdr (BodyParse.parsed env) =
        RequestResult.err e ∧ e.retryAfter = retryAfterSecondsOf hdr) ∧
    (∃ e, handleResponse 429 rid hdr (BodyParse.malformed : BodyParse α) =
        RequestResult.err e ∧ e.retryAfter = none) := by
  have hok : responseOk 429 = false := rfl
  constructor
  · cases hs : env.success
    · refine ⟨createErrorFromResponse 429 env.error rid (retryAfterSecondsOf hdr),
        ?_, ?_⟩
      · simp [handleResponse, hs, hok]
      · rw [createError_retryAfter]; simp
    · refine ⟨createErrorFromResponse 429 none rid (retryAfterSecondsOf hdr),
        ?_, ?_⟩
      · simp [handleResponse, hs, hok]
      · rw [createError_retryAfter]; simp
  · refine ⟨createErrorFromResponse 429 none rid none, ?_, ?_⟩
    · simp [handleResponse, hok]
    · rw [createError_retryAfter]; simp

/-- C10: an empty-string idempotency key is falsy in JavaScript, so
`buildHeaders` neither raises a validation error nor adds an
`X-Idempotency-Key` header — exactly as if no key had been supplied. -/
theorem c10_empty_idempotency_key (style : AuthStyle) (key : String) :
    buildHeaders style key (some "") = buildHeaders style key none ∧
    buildHeaders style key (some "") = HeadersResult.ok (baseHeaders style key) ∧
    ((baseHeaders style key).map Prod.fst).contains "X-Idempotency-Key" =
      false := by
  refine ⟨rfl, rfl, ?_⟩
  cases style <;> rfl

/-- C6: when the parsed envelope has `success = false`, the outcome is an
error classified with effective status 400 if the raw HTTP status is 2xx and
with the actual status otherwise; when the envelope has `success = true` but
the HTTP status is outside the success range, the outcome is an error
classified with the actual status. -/
theorem c6_envelope_vs_status (α : Type) (status : Nat) (rid ra : Option String)
    (env : Envelope α) (h204 : status ≠ 204) :
    (env.success = false →
      ∃ e, handleResponse status rid ra (BodyParse.parsed env) =
          RequestResult.err e ∧
        e.statusCode = some (if 200 ≤ status ∧ status ≤ 299 then 400
          else status)) ∧
    (env.success = true → ¬ (200 ≤ status ∧ status ≤ 299) →
      ∃ e, handleResponse status rid ra (BodyParse.parsed env) =
          RequestResult.err e ∧
        e.statusCode = some status) := by
  constructor
  · intro hs
    refine ⟨createErrorFromResponse (if responseOk status then 400 else status)
      env.error rid (retryAfterSecondsOf ra), ?_, ?_⟩
    · simp [handleResponse, h204, hs]
    · rw [createError_statusCode]
      congr 1
      by_cases hok : 200 ≤ status ∧ status ≤ 299
      · rw [if_pos ((responseOk_iff status).2 hok), if_pos hok]
      · rw [if_neg ?_, if_neg hok]
        intro hc
        exact hok ((responseOk_iff status).1 hc)
  · intro hs hok
    have hok' : responseOk status = false := by
      rcases hb : responseOk status
      · rfl
      · exact absurd ((responseOk_iff status).1 hb) hok
    refine ⟨createErrorFromResponse status none rid (retryAfterSecondsOf ra),
      ?_, createError_statusCode status none rid (retryAfterSecondsOf ra)⟩
    simp [handleResponse, h204, hs, hok']

/-- C6 witness: a 500 response with an in-band `success: false` envelope is
classified with the actual status 500. -/
theorem c6_witness :
    ∃ e, handleResponse 500 none none
        (BodyParse.parsed (⟨false, none, none⟩ : Envelope Nat)) =
        RequestResult.err e ∧
      e.statusCode = some (if 200 ≤ 500 ∧ (500 : Nat) ≤ 299 then 400
        else 500) :=
  (c6_envelope_vs_status Nat 500 none none (⟨false, none, none⟩ : Envelope Nat)
    (by decide)).1 rfl

/-- C1: for every failure classified inside the attempt loop, the retry test
succeeds if and only if the attempt was not a timeout and the error's status
code is 429, or defined and at least 500, or 0 with code "NETWORK_ERROR";
moreover a first-attempt failure that is a timeout or a non-429 4xx is
terminal at exactly one transport call regardless of `maxRetries`. -/
theorem c1_retryability :
    (∀ (α : Type) (o : AttemptOutcome α) (e : MailBreezeError),
      executeRequest o = RequestResult.err e →
      (isRetryable e e.name = true ↔
        (o ≠ AttemptOutcome.timeout ∧
          (e.statusCode = some 429 ∨
            (∃ s, e.statusCode = some s ∧ 500 ≤ s) ∨
            (e.statusCode = some 0 ∧ e.code = "NETWORK_ERROR"))))) ∧
    (∀ (α : Type) (style : AuthStyle) (apiKey : String) (mR : Nat)
      (outcomes : Nat → AttemptOutcome α) (e : MailBreezeError),
      executeRequest (outcomes 1) = RequestResult.err e →
      (outcomes 1 = AttemptOutcome.timeout ∨
        ∃ s, e.statusCode = some s ∧ 400 ≤ s ∧ s < 500 ∧ s ≠ 429) →
      request style apiKey mR none outcomes =
        ⟨1, [], RequestResult.err e⟩) := by
  constructor
  · intro α o e h
    cases o with
    | timeout =>
      cases h
      refine iff_of_false (by decide) ?_
      rintro ⟨hne, -⟩
      exact hne rfl
    | networkFailure m =>
      cases h
      exact iff_of_true rfl ⟨by simp, Or.inr (Or.inr ⟨rfl, rfl⟩)⟩
    | httpResponse s' rid' ra' b' =>
      obtain ⟨s'', b'', ra'', he⟩ := handleResponse_err h
      subst he
      rw [isRetryable_iff _ (by
        rw [createError_name]
        exact specKindName_ne_abort s'')]
      simp
  · intro α style apiKey mR outcomes e h1 hterm
    have hreq : request style apiKey mR none outcomes =
        requestAux outcomes 0 (mR + 1) none [] := rfl
    have h2 : isRetryable e e.name = false := by
      rcases hterm with ht | ⟨s, hsc, h400, h500, h429⟩
      · rw [ht] at h1
        cases h1
        rfl
      · exact isRetryable_false_of_4xx e e.name s hsc h400 h500 h429
    rw [hreq]
    exact requestAux_notRetryable outcomes 0 mR none [] e h1 h2

/-- C1 witness: a 404 is not retryable and is terminal at one transport call
even with five retries configured. -/
theorem c1_witness :
    (isRetryable (createErrorFromResponse 404 none none none)
        (createErrorFromResponse 404 none none none).name = true ↔
      ((AttemptOutcome.httpResponse 404 none none
          (BodyParse.malformed : BodyParse Nat)) ≠ AttemptOutcome.timeout ∧
        ((createErrorFromResponse 404 none none none).statusCode = some 429 ∨
          (∃ s, (createErrorFromResponse 404 none none none).statusCode =
            some s ∧ 500 ≤ s) ∨
          ((createErrorFromResponse 404 none none none).statusCode = some 0 ∧
            (createErrorFromResponse 404 none none none).code =
              "NETWORK_ERROR")))) ∧
    request AuthStyle.header "key" 5 none
        (fun _ => AttemptOutcome.httpResponse 404 none none
          (BodyParse.malformed : BodyParse Nat)) =
      ⟨1, [], RequestResult.err (createErrorFromResponse 404 none none none)⟩ :=
  ⟨c1_retryability.1 Nat
      (AttemptOutcome.httpResponse 404 none none BodyParse.malformed)
      (createErrorFromResponse 404 none none none) (by decide),
    c1_retryability.2 Nat AuthStyle.header "key" 5 _ _ (by decide)
      (Or.inr ⟨404, by decide, by decide, by decide, by decide⟩)⟩

/-- C9: when every attempt fails with a retryable classified error, the
engine makes exactly `maxRetries + 1` transport calls and surfaces the last
attempt's classified error — never an aggregate, never an intermediate
failure. -/
theorem c9_exhaustion (α : Type) (style : AuthStyle) (apiKey : String)
    (mR : Nat) (outcomes : Nat → AttemptOutcome α)
    (errs : Nat → MailBreezeError)
    (h1 : ∀ i, executeRequest (outcomes i) = RequestResult.err (errs i))
    (h2 : ∀ i, isRetryable (errs i) (errs i).name = true) :
    (request style apiKey mR none outcomes).calls = mR + 1 ∧
    (request style apiKey mR none outcomes).result =
      RequestResult.err (errs (mR + 1)) := by
  have hreq : request style apiKey mR none outcomes =
      requestAux outcomes 0 (mR + 1) none [] := rfl
  obtain ⟨ds', hds'⟩ := requestAux_allRetryable outcomes errs h1 h2 mR 0 none []
  rw [hreq, hds']
  exact ⟨by simp, by simp⟩

/-- C9 witness: with `maxRetries = 2` and every attempt answered with
HTTP 500, the engine makes exactly 3 transport calls and the caller receives
the Server-kind classification of the last attempt. -/
theorem c9_witness :
    (request AuthStyle.header "key" 2 none
      (fun _ => AttemptOutcome.httpResponse 500 none none
        (BodyParse.malformed : BodyParse Nat))).calls = 3 ∧
    (request AuthStyle.header "key" 2 none
      (fun _ => AttemptOutcome.httpResponse 500 none none
        (BodyParse.malformed : BodyParse Nat))).result =
      RequestResult.err (createErrorFromResponse 500 none none none) ∧
    (createErrorFromResponse 500 none none none).name = "ServerError" := by
  have h := c9_exhaustion Nat AuthStyle.header "key" 2
    (fun _ => AttemptOutcome.httpResponse 500 none none
      (BodyParse.malformed : BodyParse Nat))
    (fun _ => createErrorFromResponse 500 none none none)
    (fun _ => (by decide :
      executeRequest (AttemptOutcome.httpResponse 500 none none
        (BodyParse.malformed : BodyParse Nat)) =
      RequestResult.err (createErrorFromResponse 500 none none none)))
    (fun _ => (by decide :
      isRetryable (createErrorFromResponse 500 none none none)
        (createErrorFromResponse 500 none none none).name = true))
  exact ⟨h.1, h.2, by decide⟩

/-- C3 counterexample: the two transport-level classifications are not the
same kind — a timeout is constructed on the generic base class
(`name = "MailBreezeError"`), while a network failure is constructed as
`ServerError`. -/
theorem c3_counterexample :
    timeoutError.name = "MailBreezeError" ∧
    (networkError "connection refused").name = "ServerError" ∧
    timeoutError.name ≠ (networkError "connection refused").name := by decide

/-- C3 (amended): a timeout is classified on the generic base class with
`statusCode = 0`, code "TIMEOUT_ERROR" and message "Request timeout", and is
never retried regardless of `maxRetries`; a non-timeout network failure is
classified as Server kind with `statusCode = 0`, code "NETWORK_ERROR" and a
message prefixed "Network error: " followed by the transport message. -/
theorem c3_transport_failures :
    (timeoutError.statusCode = some 0 ∧ timeoutError.code = "TIMEOUT_ERROR" ∧
      timeoutError.message = "Request timeout" ∧
      timeoutError.name = "MailBreezeError") ∧
    (∀ (α : Type), executeRequest (AttemptOutcome.timeout : AttemptOutcome α) =
      RequestResult.err timeoutError) ∧
    (∀ (α : Type) (style : AuthStyle) (apiKey : String) (mR : Nat)
      (outcomes : Nat → AttemptOutcome α),
      outcomes 1 = AttemptOutcome.timeout →
      request style apiKey mR none outcomes =
        ⟨1, [], RequestResult.err timeoutError⟩) ∧
    (∀ (m : String), (networkError m).statusCode = some 0 ∧
      (networkError m).code = "NETWORK_ERROR" ∧
      (networkError m).message = "Network error: " ++ m ∧
      (networkError m).name = "ServerError" ∧
      (∀ (α : Type),
        executeRequest (AttemptOutcome.networkFailure m : AttemptOutcome α) =
          RequestResult.err (networkError m))) := by
  refine ⟨⟨rfl, rfl, rfl, rfl⟩, fun _ => rfl, ?_, fun m =>
    ⟨rfl, rfl, rfl, rfl, fun _ => rfl⟩⟩
  intro α style apiKey mR outcomes h
  have hreq : request style apiKey mR none outcomes =
      requestAux outcomes 0 (mR + 1) none [] := rfl
  have h1 : executeRequest (outcomes 1) = RequestResult.err timeoutError := by
    rw [h]; rfl
  rw [hreq]
  exact requestAux_notRetryable outcomes 0 mR none [] timeoutError h1 rfl

/-- C3 witness: with seven retries configured, a first-attempt timeout still
results in exactly one transport call and the timeout classification. -/
theorem c3_witness :
    request AuthStyle.header "key" 7 none
        (fun _ => (AttemptOutcome.timeout : AttemptOutcome Nat)) =
      ⟨1, [], RequestResult.err timeoutError⟩ :=
  c3_transport_failures.2.2.1 Nat AuthStyle.header "key" 7 _ rfl

/-- C4 counterexample: the error thrown for an idempotency key containing a
line feed is the generic base class, not a Validation-class error — its
`name` is not "ValidationError" and it has no 400 status. -/
theorem c4_counterexample :
    (request AuthStyle.header "key" 0 (some "idem\n123")
      (fun _ => (AttemptOutcome.timeout : AttemptOutcome Nat))).result =
      RequestResult.err (mkMailBreezeError
        "Invalid idempotency key: contains invalid characters"
        "INVALID_IDEMPOTENCY_KEY" none none none) ∧
    (mkMailBreezeError "Invalid idempotency key: contains invalid characters"
      "INVALID_IDEMPOTENCY_KEY" none none none).name ≠ "ValidationError" ∧
    (mkMailBreezeError "Invalid idempotency key: contains invalid characters"
      "INVALID_IDEMPOTENCY_KEY" none none none).statusCode ≠ some 400 := by
  decide

/-- C4 (amended): for every idempotency key containing a carriage-return or
line-feed character, `request` fails with zero transport calls with a
generic-base-class ClassifiedError (no status code) whose code is
"INVALID_IDEMPOTENCY_KEY". -/
theorem c4_invalid_idempotency_key (α : Type) (style : AuthStyle)
    (apiKey : String) (mR : Nat) (key : String)
    (outcomes : Nat → AttemptOutcome α)
    (h : key.data.any (fun c => c == '\r' || c == '\n') = true) :
    request style apiKey mR (some key) outcomes =
      ⟨0, [], RequestResult.err (mkMailBreezeError
        "Invalid idempotency key: contains invalid characters"
        "INVALID_IDEMPOTENCY_KEY" none none none)⟩ := by
  have hne : ¬ (key = "") := by
    intro hk
    subst hk
    simp [List.any] at h
  simp [request, buildHeaders, hne, h]

/-- C4 witness: a key containing a carriage return fails locally with zero
transport calls. -/
theorem c4_witness :
    request AuthStyle.bearer "k" 3 (some "a\rb")
        (fun _ => (AttemptOutcome.timeout : AttemptOutcome Nat)) =
      ⟨0, [], RequestResult.err (mkMailBreezeError
        "Invalid idempotency key: contains invalid characters"
        "INVALID_IDEMPOTENCY_KEY" none none none)⟩ :=
  c4_invalid_idempotency_key Nat AuthStyle.bearer "k" 3 "a\rb" _ (by decide)

end MailBreeze
